import Mathlib

/-
Verification of the kms-quads/kms-vulkan output scheduling and buffer
lifecycle engine.

This development is a shallow embedding of the scheduling core found in
src/main.c, the fence-slot helpers of src/kms-skeleton.h, the atomic
property encoding of src/kms.c and the software fill path of src/buffer.c.
Machine integers are modelled as Nat/Int, timespec values as nanosecond
counts, the float animation progress as a rational number, and file
descriptor closes as an explicit trace.
-/

set_option linter.unusedVariables false
set_option linter.unnecessarySeqFocus false

namespace KmsQuads

/-- BUFFER_QUEUE_DEPTH from kms-skeleton.h: buffers allocated per output. -/
def BUFFER_QUEUE_DEPTH : Nat := 3

/-- NUM_ANIM_FRAMES from kms-skeleton.h: frames before the animation wraps. -/
def NUM_ANIM_FRAMES : Nat := 240

/-- Index of a buffer in an output's fixed pool of BUFFER_QUEUE_DEPTH buffers. -/
abbrev BufIdx := Fin 3

/-- Scheduling-relevant state of one struct output (kms-skeleton.h):
the in_use flags of its three buffers, the buffer_pending and buffer_last
references (by pool index), the needs_repaint flag, whether its repaint
timerfd is armed, and the last_frame / next_frame timestamps in
nanoseconds.  A NULL buffer pointer is Option.none. -/
structure OutputState where
  in_use : BufIdx → Bool
  buffer_pending : Option BufIdx
  buffer_last : Option BufIdx
  needs_repaint : Bool
  timer_armed : Bool
  last_frame : Nat
  next_frame : Nat
  refresh_interval_nsec : Nat
  deriving DecidableEq

/-- State of an output right after output_create (kms.c): calloc zeroes the
buffers' in_use flags, buffer_pending/buffer_last and both timestamps, and
output_create sets needs_repaint = true; the repaint timerfd is not armed. -/
def initial_output (refresh : Nat) : OutputState :=
  { in_use := fun _ => false
    buffer_pending := none
    buffer_last := none
    needs_repaint := true
    timer_armed := false
    last_frame := 0
    next_frame := 0
    refresh_interval_nsec := refresh }

/-- find_free_buffer (main.c:67): linear scan over the output's three
buffers for the first one with in_use == false; the C code hits
assert(0) when none is free, modelled as none. -/
def find_free_buffer (s : OutputState) : Option BufIdx :=
  if s.in_use 0 = false then some 0
  else if s.in_use 1 = false then some 1
  else if s.in_use 2 = false then some 2
  else none

/-- repaint_one_output (main.c:233): picks a free buffer (fatal when none,
modelled as none), forces the batch's needs_modeset flag to true when the
output has never been painted (last_frame == 0), fills and encodes the
buffer, marks it in_use, stores it as buffer_pending and clears
needs_repaint.  Returns the new output state and the updated
needs_modeset flag. -/
def repaint_one_output (s : OutputState) (needs_modeset : Bool) :
    Option (OutputState × Bool) :=
  match find_free_buffer s with
  | none => none
  | some b =>
      let nm := if s.last_frame = 0 then true else needs_modeset
      some ({ s with
                in_use := Function.update s.in_use b true
                buffer_pending := some b
                needs_repaint := false }, nm)

/-- atomic_event_handler (main.c:91) for the output whose CRTC matched,
at completion timestamp t (nanoseconds): records last_frame = t, releases
the previously displayed buffer (in_use = false), promotes buffer_pending
to buffer_last, clears buffer_pending, predicts next_frame = t plus the
refresh interval and arms the repaint timer.  The C code asserts
buffer_pending is non-NULL; on a NULL pending buffer the model returns
the state unchanged (the assert would abort). -/
def atomic_event_handler (s : OutputState) (t : Nat) : OutputState :=
  match s.buffer_pending with
  | none => s
  | some p =>
      let in_use1 := match s.buffer_last with
        | some l => Function.update s.in_use l false
        | none => s.in_use
      { s with
          in_use := in_use1
          last_frame := t
          buffer_last := some p
          buffer_pending := none
          next_frame := t + s.refresh_interval_nsec
          timer_armed := true }

/-- Expiry of the output's repaint timerfd as handled by the main loop
(main.c:480): the output is flagged needs_repaint and the timer is
disarmed so subsequent polls will not wake up until it is re-armed. -/
def timer_fire (s : OutputState) : OutputState :=
  { s with needs_repaint := true, timer_armed := false }

/-- Events of the per-output scheduling loop of main (main.c:379).  A
repaint runs only for an output flagged needs_repaint; a completion event
is delivered only while a commit is in flight (the kernel sends exactly
one event per commit per CRTC, and the handler asserts buffer_pending);
the repaint timer fires only while armed. -/
inductive Step : OutputState → OutputState → Prop where
  | repaint (s s' : OutputState) (m nm : Bool)
      (hnr : s.needs_repaint = true)
      (h : repaint_one_output s m = some (s', nm)) : Step s s'
  | complete (s : OutputState) (t : Nat) (p : BufIdx)
      (hp : s.buffer_pending = some p) : Step s (atomic_event_handler s t)
  | timer (s : OutputState) (ht : s.timer_armed = true) : Step s (timer_fire s)

/-- Output states reachable by the scheduling loop from the freshly
created output. -/
inductive Reachable (refresh : Nat) : OutputState → Prop where
  | init : Reachable refresh (initial_output refresh)
  | step {s s' : OutputState} :
      Reachable refresh s → Step s s' → Reachable refresh s'

/-- Number of the output's three buffers whose in_use flag is set. -/
def countInUse (s : OutputState) : Nat :=
  (if s.in_use 0 then 1 else 0) + (if s.in_use 1 then 1 else 0) +
    (if s.in_use 2 then 1 else 0)

/-- Buffer-lifecycle invariant: pending and displayed never alias, at most
two of the three buffers are in use, and in_use holds exactly for the
buffers referenced by buffer_pending or buffer_last. -/
def BufferInv (s : OutputState) : Prop :=
  (∀ b : BufIdx, s.buffer_pending = some b → s.buffer_last ≠ some b) ∧
  countInUse s ≤ 2 ∧
  (∀ b : BufIdx, s.in_use b = true ↔
    (s.buffer_pending = some b ∨ s.buffer_last = some b))

/-- Scheduling invariant: an output flagged for repaint has no in-flight
commit, and an armed repaint timer implies the previous commit completed
and the repaint has not been flagged yet. -/
def SchedInv (s : OutputState) : Prop :=
  (s.needs_repaint = true → s.buffer_pending = none) ∧
  (s.timer_armed = true → s.buffer_pending = none ∧ s.needs_repaint = false)

/-- Full inductive invariant of the per-output scheduling loop. -/
def Inv (s : OutputState) : Prop := BufferInv s ∧ SchedInv s

theorem find_free_buffer_not_in_use {s : OutputState} {b : BufIdx}
    (h : find_free_buffer s = some b) : s.in_use b = false := by
  unfold find_free_buffer at h
  split at h
  · cases h; assumption
  · split at h
    · cases h; assumption
    · split at h
      · cases h; assumption
      · cases h

theorem find_free_buffer_lowest {s : OutputState} {b : BufIdx}
    (h : find_free_buffer s = some b) :
    ∀ j : BufIdx, j < b → s.in_use j = true := by
  intro j hj
  unfold find_free_buffer at h
  split at h
  · cases h
    exact absurd hj (by simp)
  · rename_i h0
    split at h
    · cases h
      fin_cases j
      · simpa using h0
      · exact absurd hj (by decide)
      · exact absurd hj (by decide)
    · rename_i h1
      split at h
      · cases h
        fin_cases j
        · simpa using h0
        · simpa using h1
        · exact absurd hj (by decide)
      · cases h

theorem find_free_buffer_isSome {s : OutputState}
    (h : ∃ i : BufIdx, s.in_use i = false) :
    (find_free_buffer s).isSome = true := by
  obtain ⟨i, hi⟩ := h
  unfold find_free_buffer
  fin_cases i <;> simp_all <;> split <;> simp_all <;> split <;> simp_all

theorem countInUse_le_two_of_iff {s : OutputState}
    (h : ∀ b : BufIdx, s.in_use b = true ↔
      (s.buffer_pending = some b ∨ s.buffer_last = some b)) :
    countInUse s ≤ 2 := by
  have h0 := h 0
  have h1 := h 1
  have h2 := h 2
  unfold countInUse
  rcases hp : s.buffer_pending with _ | p <;>
    rcases hl : s.buffer_last with _ | l <;>
      rw [hp, hl] at h0 h1 h2 <;>
      [skip; fin_cases l; fin_cases p; (fin_cases p <;> fin_cases l)] <;>
      simp_all

theorem inv_initial (refresh : Nat) : Inv (initial_output refresh) := by
  refine ⟨⟨?_, ?_, ?_⟩, ?_, ?_⟩ <;> simp [initial_output, countInUse]

theorem repaint_one_output_eq {s : OutputState} {b : BufIdx} (m : Bool)
    (hf : find_free_buffer s = some b) :
    repaint_one_output s m =
      some ({ s with
                in_use := Function.update s.in_use b true
                buffer_pending := some b
                needs_repaint := false },
            if s.last_frame = 0 then true else m) := by
  unfold repaint_one_output
  rw [hf]

theorem atomic_event_handler_some_none {s : OutputState} {p : BufIdx}
    (t : Nat) (hp : s.buffer_pending = some p) (hl : s.buffer_last = none) :
    atomic_event_handler s t =
      { s with
          last_frame := t
          buffer_last := some p
          buffer_pending := none
          next_frame := t + s.refresh_interval_nsec
          timer_armed := true } := by
  unfold atomic_event_handler
  rw [hp, hl]

theorem atomic_event_handler_some_some {s : OutputState} {p l : BufIdx}
    (t : Nat) (hp : s.buffer_pending = some p) (hl : s.buffer_last = some l) :
    atomic_event_handler s t =
      { s with
          in_use := Function.update s.in_use l false
          last_frame := t
          buffer_last := some p
          buffer_pending := none
          next_frame := t + s.refresh_interval_nsec
          timer_armed := true } := by
  unfold atomic_event_handler
  rw [hp, hl]

theorem inv_step {s s' : OutputState} (hI : Inv s) (hs : Step s s') :
    Inv s' := by
  obtain ⟨⟨hdist, hcount, hiff⟩, hnrinv, htinv⟩ := hI
  cases hs with
  | repaint _ m nm hnr h =>
      have hpnone : s.buffer_pending = none := hnrinv hnr
      rcases hf : find_free_buffer s with _ | b
      · simp [repaint_one_output, hf] at h
      · rw [repaint_one_output_eq m hf] at h
        have hfree : s.in_use b = false := find_free_buffer_not_in_use hf
        simp only [Option.some.injEq, Prod.mk.injEq] at h
        obtain ⟨hs', _⟩ := h
        subst hs'
        have hiff' : ∀ c : BufIdx,
            Function.update s.in_use b true c = true ↔
              (some b = some c ∨ s.buffer_last = some c) := by
          intro c
          by_cases hc : c = b
          · subst hc
            simp
          · have hc2 := hiff c
            rw [hpnone] at hc2
            simpa [Function.update_apply, hc, Ne.symm hc] using hc2
        refine ⟨⟨?_, ?_, hiff'⟩, ?_, ?_⟩
        · intro c hc hlast
          have hbc : b = c := by simpa using hc
          subst hbc
          have hb := (hiff b).mpr (Or.inr (by simpa using hlast))
          rw [hfree] at hb
          cases hb
        · exact countInUse_le_two_of_iff hiff'
        · intro hcontra
          simp at hcontra
        · intro hcontra
          exact absurd (htinv hcontra).2 (by simp [hnr])
  | complete t p hp =>
      have hnrf : s.needs_repaint = false := by
        rcases hnr : s.needs_repaint
        · rfl
        · rw [hnrinv hnr] at hp
          cases hp
      rcases hl : s.buffer_last with _ | l
      · rw [atomic_event_handler_some_none t hp hl]
        have hiff' : ∀ c : BufIdx, s.in_use c = true ↔
            ((none : Option BufIdx) = some c ∨ some p = some c) := by
          intro c
          have hc := hiff c
          rw [hp, hl] at hc
          simpa [or_comm] using hc
        refine ⟨⟨?_, ?_, hiff'⟩, ?_, ?_⟩
        · intro c hc
          simp at hc
        · exact countInUse_le_two_of_iff hiff'
        · intro _
          rfl
        · intro _
          exact ⟨rfl, hnrf⟩
      · have hlp : l ≠ p := by
          intro hcontra
          subst hcontra
          exact hdist l hp hl
        rw [atomic_event_handler_some_some t hp hl]
        have hiff' : ∀ c : BufIdx,
            Function.update s.in_use l false c = true ↔
              ((none : Option BufIdx) = some c ∨ some p = some c) := by
          intro c
          by_cases hc : c = l
          · subst hc
            simp [Function.update_apply, Ne.symm hlp]
          · have hc2 := hiff c
            rw [hp, hl] at hc2
            simp only [Option.some.injEq] at hc2
            simpa [Function.update_apply, hc, Ne.symm hc] using hc2
        refine ⟨⟨?_, ?_, hiff'⟩, ?_, ?_⟩
        · intro c hc
          simp at hc
        · exact countInUse_le_two_of_iff hiff'
        · intro _
          rfl
        · intro _
          exact ⟨rfl, hnrf⟩
  | timer ht =>
      have hpnone : s.buffer_pending = none := (htinv ht).1
      refine ⟨⟨?_, ?_, ?_⟩, ?_, ?_⟩
      · exact hdist
      · exact hcount
      · exact hiff
      · intro _
        exact hpnone
      · intro hcontra
        simp [timer_fire] at hcontra

theorem inv_reachable {refresh : Nat} {s : OutputState}
    (h : Reachable refresh s) : Inv s := by
  induction h with
  | init => exact inv_initial refresh
  | step _ hstep ih => exact inv_step ih hstep

/-- C1: at every state of the scheduling loop reachable from a freshly
created output, the buffer referenced by buffer_pending and the buffer
referenced by buffer_last are never the same buffer, at most 2 of the
output's 3 buffers have in_use = true, and a buffer's in_use flag is true
iff that buffer is referenced by buffer_pending or buffer_last.  Since
the loop's steps are exactly repaint_one_output, atomic_event_handler and
the repaint-timer expiry, the invariant is preserved by both
repaint_one_output and atomic_event_handler. -/
theorem c1_buffer_lifecycle_invariant (refresh : Nat) (s : OutputState)
    (h : Reachable refresh s) :
    (∀ b : BufIdx, s.buffer_pending = some b → s.buffer_last ≠ some b) ∧
    countInUse s ≤ 2 ∧
    (∀ b : BufIdx, s.in_use b = true ↔
      (s.buffer_pending = some b ∨ s.buffer_last = some b)) :=
  (inv_reachable h).1

/-- Witness for C1: the invariant instantiated at the reachable state
obtained by a first repaint followed by its completion event. -/
theorem c1_buffer_lifecycle_invariant_witness :
    countInUse (atomic_event_handler
      { initial_output 100 with
          in_use := Function.update (initial_output 100).in_use 0 true
          buffer_pending := some 0
          needs_repaint := false } 1000) ≤ 2 :=
  (c1_buffer_lifecycle_invariant 100 _
    (Reachable.step (Reachable.step Reachable.init
      (Step.repaint _ _ false true rfl rfl))
      (Step.complete _ 1000 0 rfl))).2.1

/-- C4: an output is repainted by main only when its needs_repaint flag
is set, and at every reachable state a needs_repaint output has
buffer_pending = NULL; hence repaint_one_output only ever executes on an
output with no in-flight commit, so no output ever has two outstanding
commits.  (needs_repaint is cleared when a buffer is committed as pending
and set again only by the repaint timer, which is armed only by the
completion handler after it clears buffer_pending.) -/
theorem c4_no_double_commit (refresh : Nat) (s : OutputState)
    (h : Reachable refresh s) (hnr : s.needs_repaint = true) :
    s.buffer_pending = none :=
  ((inv_reachable h).2).1 hnr

/-- Witness for C4: applied to the state reached after one full
repaint / completion / timer-expiry cycle. -/
theorem c4_no_double_commit_witness :
    (timer_fire (atomic_event_handler
      { initial_output 100 with
          in_use := Function.update (initial_output 100).in_use 0 true
          buffer_pending := some 0
          needs_repaint := false } 1000)).buffer_pending = none :=
  c4_no_double_commit 100 _
    (Reachable.step (Reachable.step (Reachable.step Reachable.init
      (Step.repaint _ _ false true rfl rfl))
      (Step.complete _ 1000 0 rfl))
      (Step.timer _ rfl)) rfl

/-- C2: postcondition of the completion handler for an output with a
non-null buffer_pending, at completion timestamp t: the previously
displayed buffer (if any) has in_use cleared, the pending buffer becomes
buffer_last, buffer_pending becomes null, and next_frame equals exactly
t + refresh_interval_nsec.  The handler takes no wall-clock input, so the
prediction is derived from the completion timestamp alone. -/
theorem c2_completion_postcondition (s : OutputState) (p : BufIdx) (t : Nat)
    (hp : s.buffer_pending = some p) :
    (∀ l : BufIdx, s.buffer_last = some l →
      (atomic_event_handler s t).in_use l = false) ∧
    (atomic_event_handler s t).buffer_last = some p ∧
    (atomic_event_handler s t).buffer_pending = none ∧
    (atomic_event_handler s t).next_frame = t + s.refresh_interval_nsec := by
  rcases hl : s.buffer_last with _ | l
  · rw [atomic_event_handler_some_none t hp hl]
    refine ⟨?_, rfl, rfl, rfl⟩
    intro l hcontra
    simp at hcontra
  · rw [atomic_event_handler_some_some t hp hl]
    refine ⟨?_, rfl, rfl, rfl⟩
    intro c hc
    have hlc : l = c := by simpa using hc
    subst hlc
    simp [Function.update_apply]

/-- Witness for C2, instantiating Scenario A: refresh interval 16.6ms
(16600000ns) and completion at t = 1000ms (1000000000ns) give a predicted
next_frame of exactly 1016.6ms (1016600000ns), and the previously
displayed buffer 1 is released. -/
theorem c2_completion_postcondition_witness :
    (atomic_event_handler
      { in_use := fun i => decide (i = 0 ∨ i = 1)
        buffer_pending := some 0
        buffer_last := some 1
        needs_repaint := false
        timer_armed := false
        last_frame := 983400000
        next_frame := 1000000000
        refresh_interval_nsec := 16600000 } 1000000000).next_frame
        = 1016600000 ∧
    (atomic_event_handler
      { in_use := fun i => decide (i = 0 ∨ i = 1)
        buffer_pending := some 0
        buffer_last := some 1
        needs_repaint := false
        timer_armed := false
        last_frame := 983400000
        next_frame := 1000000000
        refresh_interval_nsec := 16600000 } 1000000000).in_use 1 = false := by
  have h := c2_completion_postcondition
    { in_use := fun i => decide (i = 0 ∨ i = 1)
      buffer_pending := some 0
      buffer_last := some 1
      needs_repaint := false
      timer_armed := false
      last_frame := 983400000
      next_frame := 1000000000
      refresh_interval_nsec := 16600000 } 0 1000000000 rfl
  exact ⟨h.2.2.2, h.1 1 rfl⟩

/-- Scenario B state: two buffers in flight (buffer_pending = buffer 1,
buffer_last = buffer 0, both in_use), buffer 2 free. -/
def scenarioB_state : OutputState :=
  { in_use := fun i => decide (i.val < 2)
    buffer_pending := some 1
    buffer_last := some 0
    needs_repaint := false
    timer_armed := false
    last_frame := 100
    next_frame := 150
    refresh_interval_nsec := 50 }

/-- C3: whenever some buffer of the pool is free, find_free_buffer
returns the lowest-indexed free buffer and its fatal no-free-buffer
assertion is not reached (the scan yields some result); in Scenario B,
with buffers 0 and 1 in flight, it returns buffer 2, and after the
completion event promotes pending to displayed and releases the old
displayed buffer 0, the next call returns that just-released buffer. -/
theorem c3_find_free_lowest :
    (∀ (s : OutputState) (b : BufIdx), find_free_buffer s = some b →
      s.in_use b = false ∧ ∀ j : BufIdx, j < b → s.in_use j = true) ∧
    (∀ s : OutputState, (∃ i : BufIdx, s.in_use i = false) →
      (find_free_buffer s).isSome = true) ∧
    find_free_buffer scenarioB_state = some 2 ∧
    scenarioB_state.buffer_last = some 0 ∧
    find_free_buffer (atomic_event_handler scenarioB_state 200) = some 0 ∧
    (atomic_event_handler scenarioB_state 200).buffer_last = some 1 :=
  ⟨fun _ _ h => ⟨find_free_buffer_not_in_use h, find_free_buffer_lowest h⟩,
    fun _ h => find_free_buffer_isSome h, by decide, rfl, by decide, rfl⟩

/-- Witness for C3: the lowest-index property applied to the Scenario B
state, where the free buffer found is buffer 2. -/
theorem c3_find_free_lowest_witness :
    scenarioB_state.in_use 2 = false :=
  (c3_find_free_lowest.1 scenarioB_state 2 (by decide)).1

/-- Flags passed by atomic_commit (kms.c:831) to drmModeAtomicCommit:
DRM_MODE_ATOMIC_NONBLOCK and DRM_MODE_PAGE_FLIP_EVENT are always set,
and DRM_MODE_ATOMIC_ALLOW_MODESET is added exactly when the caller's
allow_modeset argument is true. -/
structure CommitFlags where
  nonblock : Bool
  page_flip_event : Bool
  allow_modeset : Bool
  deriving DecidableEq

/-- atomic_commit (kms.c:831), restricted to the flag word it builds. -/
def atomic_commit_flags (allow_modeset : Bool) : CommitFlags :=
  { nonblock := true, page_flip_event := true, allow_modeset := allow_modeset }

/-- C5: repaint_one_output turns the batch's needs_modeset flag on iff
the output has never been painted before (its last_frame is zero), i.e.
the outgoing flag is the incoming flag OR-ed with that condition; the
first repaint of a fresh output always sets it; after a completion has
recorded a (necessarily nonzero) completion timestamp into last_frame,
subsequent repaints never set it; and atomic_commit passes ALLOW_MODESET
exactly when the accumulated flag is set, so the flag is only passed on
a batch containing some output's first frame. -/
theorem c5_allow_modeset_first_frame :
    (∀ (s : OutputState) (m : Bool) (s' : OutputState) (nm : Bool),
      repaint_one_output s m = some (s', nm) →
      nm = (m || decide (s.last_frame = 0))) ∧
    (∀ (refresh : Nat) (s' : OutputState) (nm : Bool),
      repaint_one_output (initial_output refresh) false = some (s', nm) →
      nm = true) ∧
    (∀ (s : OutputState) (p : BufIdx) (t : Nat) (s' : OutputState) (nm : Bool),
      s.buffer_pending = some p → 0 < t →
      repaint_one_output (atomic_event_handler s t) false = some (s', nm) →
      nm = false) ∧
    (∀ m : Bool, (atomic_commit_flags m).allow_modeset = m) := by
  have h1 : ∀ (s : OutputState) (m : Bool) (s' : OutputState) (nm : Bool),
      repaint_one_output s m = some (s', nm) →
      nm = (m || decide (s.last_frame = 0)) := by
    intro s m s' nm h
    rcases hf : find_free_buffer s with _ | b
    · simp [repaint_one_output, hf] at h
    · rw [repaint_one_output_eq m hf] at h
      simp only [Option.some.injEq, Prod.mk.injEq] at h
      obtain ⟨_, hnm⟩ := h
      subst hnm
      by_cases h0 : s.last_frame = 0 <;> simp [h0]
  refine ⟨h1, ?_, ?_, fun m => rfl⟩
  · intro refresh s' nm h
    simpa [initial_output] using h1 _ _ _ _ h
  · intro s p t s' nm hp ht h
    have hconc := h1 _ _ _ _ h
    have hlf : (atomic_event_handler s t).last_frame = t := by
      rcases hl : s.buffer_last with _ | l
      · rw [atomic_event_handler_some_none t hp hl]
      · rw [atomic_event_handler_some_some t hp hl]
    rw [hlf] at hconc
    simpa [Nat.pos_iff_ne_zero.mp ht] using hconc

/-- Witness for C5: the first repaint of a fresh output (last_frame = 0)
with an incoming flag of false produces a needs_modeset flag of true. -/
theorem c5_allow_modeset_first_frame_witness :
    (true : Bool) = (false || decide ((initial_output 100).last_frame = 0)) :=
  c5_allow_modeset_first_frame.1 (initial_output 100) false
    { initial_output 100 with
        in_use := Function.update (initial_output 100).in_use 0 true
        buffer_pending := some 0
        needs_repaint := false } true rfl

/-- Animation progress computed by repaint_one_output (main.c:264-266)
for an already-painted output: the signed nanosecond delta between the
output's predicted presentation time next_frame and the animation start,
reduced modulo the fixed loop duration D with C's truncating %, then
divided by D.  The C float division is modelled exactly in the
rationals. -/
def repaint_anim_progress (next_frame anim_start D : Int) : Rat :=
  let abs_delta_nsec := next_frame - anim_start
  let rel_delta_nsec := Int.tmod abs_delta_nsec D
  (rel_delta_nsec : Rat) / (D : Rat)

/-- C6: for a fixed animation-loop duration D > 0 and an elapsed time
T ≥ 0 (the output's next predicted presentation time minus the animation
start), the computed progress fraction equals (T mod D) / D; moreover the
fraction is a function of the elapsed time alone, hence independent of
how many frames were dropped before reaching T. -/
theorem c6_progress_determinism (D T anim_start : Int)
    (hD : 0 < D) (hT : 0 ≤ T) :
    repaint_anim_progress (anim_start + T) anim_start D
      = ((T % D : Int) : Rat) / (D : Rat) ∧
    ∀ n1 s1 n2 s2 : Int, n1 - s1 = n2 - s2 →
      repaint_anim_progress n1 s1 D = repaint_anim_progress n2 s2 D := by
  constructor
  · unfold repaint_anim_progress
    simp only [add_sub_cancel_left]
    rw [Int.tmod_eq_emod hT (le_of_lt hD)]
  · intro n1 s1 n2 s2 h
    unfold repaint_anim_progress
    rw [h]

/-- Witness for C6: a 1-second loop duration and an elapsed time of 2.5
seconds (several dropped loops) give progress (2.5s mod 1s) / 1s. -/
theorem c6_progress_determinism_witness :
    repaint_anim_progress (0 + 2500000000) 0 1000000000
      = ((2500000000 % 1000000000 : Int) : Rat) / (1000000000 : Rat) :=
  (c6_progress_determinism 1000000000 2500000000 0 (by norm_num)
    (by norm_num)).1

/-- Properties set on the primary plane by output_add_atomic_req. -/
inductive PlaneProp where
  | src_x
  | src_y
  | src_w
  | src_h
  | crtc_x
  | crtc_y
  | crtc_w
  | crtc_h
  | fb_id
  | crtc_id
  | in_fence_fd
  deriving DecidableEq

/-- Geometry-relevant fields of a struct buffer. -/
structure BufferGeom where
  width : Nat
  height : Nat
  fb_id : Nat
  render_fence_fd : Int
  deriving DecidableEq

/-- Geometry-relevant fields of a struct output: its CRTC object id, the
active mode's hdisplay/vdisplay (uint16_t fields of drmModeModeInfo) and
the explicit-fencing capability. -/
structure OutputGeom where
  crtc_id : Nat
  hdisplay : Nat
  vdisplay : Nat
  explicit_fencing : Bool
  deriving DecidableEq

/-- Plane property writes made by output_add_atomic_req (kms.c:728), in
order: CRTC_ID, FB_ID, optionally IN_FENCE_FD, the source rectangle
SRC_X/Y/W/H (SRC_W/H in 16.16 fixed point, computed as width << 16 in
32-bit C arithmetic) and the destination rectangle CRTC_X/Y/W/H in plain
integers. -/
def output_add_atomic_req (o : OutputGeom) (b : BufferGeom) :
    List (PlaneProp × Nat) :=
  [(PlaneProp.crtc_id, o.crtc_id), (PlaneProp.fb_id, b.fb_id)] ++
  (if o.explicit_fencing ∧ 0 ≤ b.render_fence_fd then
      [(PlaneProp.in_fence_fd, b.render_fence_fd.toNat)]
    else []) ++
  [(PlaneProp.src_x, 0), (PlaneProp.src_y, 0),
   (PlaneProp.src_w, b.width * 65536 % 2 ^ 32),
   (PlaneProp.src_h, b.height * 65536 % 2 ^ 32),
   (PlaneProp.crtc_x, 0), (PlaneProp.crtc_y, 0),
   (PlaneProp.crtc_w, b.width), (PlaneProp.crtc_h, b.height)]

/-- A rectangle decoded from plane properties. -/
structure Rect where
  x : Nat
  y : Nat
  w : Nat
  h : Nat
  deriving DecidableEq

/-- Looks a plane property up in an atomic request. -/
def lookup_prop (props : List (PlaneProp × Nat)) (p : PlaneProp) :
    Option Nat :=
  (props.find? (fun q => decide (q.1 = p))).map (fun q => q.2)

/-- Decodes the plane's source rectangle from its 16.16 fixed-point
property values. -/
def decode_src_rect (props : List (PlaneProp × Nat)) : Option Rect :=
  match lookup_prop props PlaneProp.src_x, lookup_prop props PlaneProp.src_y,
      lookup_prop props PlaneProp.src_w,
      lookup_prop props PlaneProp.src_h with
  | some x, some y, some w, some h =>
      some { x := x / 65536, y := y / 65536, w := w / 65536, h := h / 65536 }
  | _, _, _, _ => none

/-- Decodes the plane's destination rectangle from its plain-integer
property values. -/
def decode_crtc_rect (props : List (PlaneProp × Nat)) : Option Rect :=
  match lookup_prop props PlaneProp.crtc_x, lookup_prop props PlaneProp.crtc_y,
      lookup_prop props PlaneProp.crtc_w,
      lookup_prop props PlaneProp.crtc_h with
  | some x, some y, some w, some h => some { x := x, y := y, w := w, h := h }
  | _, _, _, _ => none

/-- C7: output_add_atomic_req encodes a full-output, unscaled, uncropped
geometry.  Under the asserted preconditions that the buffer's dimensions
equal the mode's hdisplay/vdisplay (kms.c:769-770; both are uint16_t, so
below 65536), SRC_X = SRC_Y = CRTC_X = CRTC_Y = 0, SRC_W/SRC_H are the
dimensions in 16.16 fixed point, CRTC_W/CRTC_H are the plain dimensions,
and decoding yields source and destination rectangles exactly equal to
the mode's dimensions. -/
theorem c7_full_output_geometry (o : OutputGeom) (b : BufferGeom)
    (hw : b.width = o.hdisplay) (hh : b.height = o.vdisplay)
    (hwlt : o.hdisplay < 65536) (hhlt : o.vdisplay < 65536) :
    lookup_prop (output_add_atomic_req o b) PlaneProp.src_x = some 0 ∧
    lookup_prop (output_add_atomic_req o b) PlaneProp.src_y = some 0 ∧
    lookup_prop (output_add_atomic_req o b) PlaneProp.crtc_x = some 0 ∧
    lookup_prop (output_add_atomic_req o b) PlaneProp.crtc_y = some 0 ∧
    lookup_prop (output_add_atomic_req o b) PlaneProp.src_w
      = some (o.hdisplay * 65536) ∧
    lookup_prop (output_add_atomic_req o b) PlaneProp.src_h
      = some (o.vdisplay * 65536) ∧
    lookup_prop (output_add_atomic_req o b) PlaneProp.crtc_w
      = some o.hdisplay ∧
    lookup_prop (output_add_atomic_req o b) PlaneProp.crtc_h
      = some o.vdisplay ∧
    decode_src_rect (output_add_atomic_req o b)
      = some { x := 0, y := 0, w := o.hdisplay, h := o.vdisplay } ∧
    decode_crtc_rect (output_add_atomic_req o b)
      = some { x := 0, y := 0, w := o.hdisplay, h := o.vdisplay } := by
  have hwlt2 : b.width < 65536 := by omega
  have hhlt2 : b.height < 65536 := by omega
  rw [← hw, ← hh]
  have hwmod : b.width * 65536 % 2 ^ 32 = b.width * 65536 :=
    Nat.mod_eq_of_lt (by omega)
  have hhmod : b.height * 65536 % 2 ^ 32 = b.height * 65536 :=
    Nat.mod_eq_of_lt (by omega)
  have hwdiv : b.width * 65536 / 65536 = b.width :=
    Nat.mul_div_cancel b.width (by norm_num)
  have hhdiv : b.height * 65536 / 65536 = b.height :=
    Nat.mul_div_cancel b.height (by norm_num)
  by_cases hfence : o.explicit_fencing ∧ 0 ≤ b.render_fence_fd <;>
    simp [output_add_atomic_req, lookup_prop, decode_src_rect,
      decode_crtc_rect, hfence, hwmod, hhmod, hwdiv, hhdiv, List.find?] <;>
    omega

/-- Witness for C7: a 1920 x 1080 mode with a matching buffer decodes to
full-screen source and destination rectangles. -/
theorem c7_full_output_geometry_witness :
    decode_src_rect (output_add_atomic_req
        { crtc_id := 42, hdisplay := 1920, vdisplay := 1080
          explicit_fencing := true }
        { width := 1920, height := 1080, fb_id := 7, render_fence_fd := 5 })
      = some { x := 0, y := 0, w := 1920, h := 1080 } :=
  (c7_full_output_geometry
    { crtc_id := 42, hdisplay := 1920, vdisplay := 1080
      explicit_fencing := true }
    { width := 1920, height := 1080, fb_id := 7, render_fence_fd := 5 }
    rfl rfl (by norm_num) (by norm_num)).2.2.2.2.2.2.2.2.1

/-- One output of a device as seen by the completion dispatcher: its CRTC
object id and its scheduling state. -/
structure DevOutput where
  crtc_id : Nat
  state : OutputState
  deriving DecidableEq

/-- atomic_event_handler (main.c:91) at the device level: the handler
scans device->outputs for the output whose crtc_id matches the event's
and returns with no state change when none matches (the event is only
logged and dropped); when an output matches, that output's state is
updated, with none modelling the abort of the asserts on a NULL or
not-in-use pending buffer. -/
def device_atomic_event_handler :
    List DevOutput → Nat → Nat → Option (List DevOutput)
  | [], _, _ => some []
  | o :: rest, crtc, t =>
      if o.crtc_id = crtc then
        match o.state.buffer_pending with
        | none => none
        | some p =>
            if o.state.in_use p then
              some ({ o with state := atomic_event_handler o.state t } :: rest)
            else none
      else
        (device_atomic_event_handler rest crtc t).map (fun l => o :: l)

/-- C8: a completion event whose CRTC id matches no output of the device
leaves every output's state unchanged and does not abort: the handler
returns the device's output list untouched. -/
theorem c8_unknown_crtc_dropped (outs : List DevOutput) (crtc t : Nat)
    (h : ∀ o ∈ outs, o.crtc_id ≠ crtc) :
    device_atomic_event_handler outs crtc t = some outs := by
  induction outs with
  | nil => rfl
  | cons o rest ih =>
      have hne : o.crtc_id ≠ crtc := h o (List.mem_cons_self o rest)
      have hrest : device_atomic_event_handler rest crtc t = some rest :=
        ih (fun x hx => h x (List.mem_cons_of_mem o hx))
      simp [device_atomic_event_handler, hne, hrest]

/-- Witness for C8: an event for CRTC 99 on a device whose only outputs
use CRTCs 10 and 11 is dropped without touching the outputs. -/
theorem c8_unknown_crtc_dropped_witness :
    device_atomic_event_handler
      [{ crtc_id := 10, state := initial_output 60 },
       { crtc_id := 11, state := initial_output 60 }] 99 1000
      = some [{ crtc_id := 10, state := initial_output 60 },
              { crtc_id := 11, state := initial_output 60 }] :=
  c8_unknown_crtc_dropped _ 99 1000 (by
    intro o ho
    simp only [List.mem_cons, List.not_mem_nil, or_false] at ho
    rcases ho with rfl | rfl <;> decide)

/-- A fence-fd slot together with the trace of close() calls performed on
it.  fd_replace (kms-skeleton.h:505) closes the currently stored
descriptor when it is valid (>= 0), then stores source. -/
structure FdSlot where
  fd : Int
  closed : List Int
  deriving DecidableEq

/-- fd_replace (kms-skeleton.h:505): close(*target) when *target >= 0,
then *target = source; every close is appended to the trace. -/
def fd_replace (s : FdSlot) (source : Int) : FdSlot :=
  if 0 ≤ s.fd then { fd := source, closed := s.closed ++ [s.fd] }
  else { s with fd := source }

/-- C9 counterexample: with descriptor 5 already stored, two successive
fd_replace calls that pass that same stored value 5 close descriptor 5
twice — the close trace is [5, 5] — refuting the claim's conjunct that
such a pair of calls does not close the descriptor twice. -/
theorem c9_counterexample_double_close :
    (fd_replace (fd_replace { fd := 5, closed := [] } 5) 5).closed
      = [5, 5] := rfl

/-- C9 amended: fd_replace closes the currently stored descriptor when it
is valid (>= 0) and then stores source; it performs no close when the
slot holds -1; every valid stored descriptor is recorded as closed before
being overwritten (no leak); but calling it twice in a row with the same
already-stored descriptor value closes that descriptor once per call,
twice in total. -/
theorem c9_fd_replace_spec (s : FdSlot) (source : Int) :
    ((0 ≤ s.fd → fd_replace s source
        = { fd := source, closed := s.closed ++ [s.fd] }) ∧
      (fd_replace s source).fd = source) ∧
    (s.fd = -1 → (fd_replace s source).closed = s.closed) ∧
    (0 ≤ s.fd → s.fd ∈ (fd_replace s source).closed) ∧
    (0 ≤ s.fd →
      (fd_replace (fd_replace s s.fd) s.fd).closed.count s.fd
        = s.closed.count s.fd + 2) := by
  by_cases h : 0 ≤ s.fd
  · refine ⟨⟨fun _ => by simp [fd_replace, h], by simp [fd_replace, h]⟩,
      fun hneg => by omega, fun _ => by simp [fd_replace, h],
      fun _ => ?_⟩
    simp [fd_replace, h, List.count_append]
  · refine ⟨⟨fun hpos => absurd hpos h, by simp [fd_replace, h]⟩,
      fun _ => by simp [fd_replace, h],
      fun hpos => absurd hpos h, fun hpos => absurd hpos h⟩

/-- Witness for C9 (amended): starting from a slot holding descriptor 5
with an empty close trace, the double self-replacement closes 5 exactly
twice. -/
theorem c9_fd_replace_spec_witness :
    (fd_replace (fd_replace { fd := 5, closed := [] } 5) 5).closed.count 5
      = List.count 5 ([] : List Int) + 2 :=
  (c9_fd_replace_spec { fd := 5, closed := [] } 7).2.2.2 (by norm_num)

/-- Data buffer_fill (buffer.c:44) reads on the dumb (software) path: the
buffer's dimensions and pitch and the owning output's frame_num counter
(struct output, kms-skeleton.h:380). -/
structure DumbBuffer where
  width : Nat
  height : Nat
  pitch : Nat
  output_frame_num : Nat
  deriving DecidableEq

/-- Pixel value written by buffer_fill at coordinate (x, y): alpha 0xff,
red 0xff at and right of the vertical boundary, blue 0xff at and below
the horizontal boundary, green 0; both boundaries are derived from the
owning output's frame_num scaled by the dimension over
NUM_ANIM_FRAMES. -/
def buffer_fill_pixel (buf : DumbBuffer) (x y : Nat) : Nat :=
  let b := if y ≥ buf.height * buf.output_frame_num / NUM_ANIM_FRAMES
    then 0xff else 0
  let r := if x ≥ buf.width * buf.output_frame_num / NUM_ANIM_FRAMES
    then 0xff else 0
  0xff * 2 ^ 24 + r * 2 ^ 16 + b

/-- buffer_fill (buffer.c:44) on the dumb path, as the list of (byte
offset, pixel value) stores it performs: row y starts at byte offset
y * pitch, pixel x is 4 bytes wide.  The frame_num parameter mirrors the
C signature (kms-skeleton.h:465); the software path never reads it. -/
def buffer_fill (buf : DumbBuffer) (frame_num : Int) : List (Nat × Nat) :=
  (List.range buf.height).flatMap (fun y =>
    (List.range buf.width).map (fun x =>
      (y * buf.pitch + 4 * x, buffer_fill_pixel buf x y)))

/-- C10: the pixel stores produced by buffer_fill on a dumb buffer
depend only on the owning output's stored frame_num counter and the
buffer's dimensions and pitch, never on the frame-number argument of the
call: two calls on the same buffer state with different argument values
produce identical contents. -/
theorem c10_fill_ignores_frame_argument (buf : DumbBuffer) (n1 n2 : Int) :
    buffer_fill buf n1 = buffer_fill buf n2 := rfl

end KmsQuads
